import Mathlib

/-!
Verification development for the firecollector repository.

The definitions below are a shallow embedding of the TypeScript sources:
`src/services/PDFProcessingService.ts`, `src/services/AIService.ts`,
`src/services/FirecrawlService.ts` and the PDF batch-upload view.
External collaborators (the AI provider network, the JSON decoder of the
browser, the relational store) are modelled as explicit parameters or as
explicit state, so that every code path of the embedded functions is the
path the source takes.
-/

namespace FireCollector

/-! ## JavaScript string primitives

Small total models of the JavaScript string methods the services use:
`trim`, `toLowerCase`, `split`, `slice`, `includes`, `join`, and the
truthiness test `s ? a : b`.  They operate on the character list of a
`String` so that every proof can compute.
-/

/-- Whitespace for the purposes of `String.prototype.trim`. -/
def jsIsWS (c : Char) : Bool :=
  c = ' ' || c = '\t' || c = '\n' || c = '\r' || c = '\x0b' || c = '\x0c'

/-- Model of `text.trim()`. -/
def jsTrim (s : String) : String :=
  ⟨(((s.data.dropWhile jsIsWS).reverse).dropWhile jsIsWS).reverse⟩

/-- Model of `text.toLowerCase()` (ASCII case folding). -/
def jsToLower (s : String) : String :=
  ⟨s.data.map Char.toLower⟩

/-- Model of `text.slice(0, n)`. -/
def jsSlice (s : String) (n : Nat) : String :=
  ⟨s.data.take n⟩

/-- Split a character list at every newline, keeping empty pieces, as
`text.split('\n')` does. -/
def splitNL : List Char → List (List Char)
  | [] => [[]]
  | c :: rest =>
    match splitNL rest with
    | [] => [[]]
    | h :: t => if c = '\n' then [] :: h :: t else (c :: h) :: t

/-- Model of `text.split('\n')`. -/
def jsSplitNewline (s : String) : List String :=
  (splitNL s.data).map (fun cs => ⟨cs⟩)

/-- Does `n` occur at the head of `l`? -/
def listPrefixOf : List Char → List Char → Bool
  | [], _ => true
  | _ :: _, [] => false
  | a :: as, b :: bs => a = b && listPrefixOf as bs

/-- Does `n` occur contiguously anywhere in `l`? -/
def listContainsSub (n : List Char) : List Char → Bool
  | [] => n.isEmpty
  | b :: bs => listPrefixOf n (b :: bs) || listContainsSub n bs

/-- Model of `hay.includes(needle)` (also of a truthy regex literal match). -/
def strIncludes (hay needle : String) : Bool :=
  listContainsSub needle.data hay.data

/-- JavaScript truthiness of an optional string (`undefined` and `""` are falsy). -/
def jsTruthyStr : Option String → Bool
  | some s => s ≠ ""
  | none => false

/-- Model of `v || dflt` on an optional string operand. -/
def jsOrStr (v : Option String) (dflt : String) : String :=
  match v with
  | some s => if s = "" then dflt else s
  | none => dflt

/-- Model of `v || dflt` on an optional number operand (`0` is falsy). -/
def jsOrInt (v : Option Int) (dflt : Int) : Int :=
  match v with
  | some y => if y = 0 then dflt else y
  | none => dflt

/-- Model of `array.join(sep)`. -/
def jsJoin (sep : String) : List String → String
  | [] => ""
  | [s] => s
  | s :: rest => s ++ sep ++ jsJoin sep rest

/-- Pair every list element with its index, already mapped through `f`;
models `array.map((x, index) => f(index, x))`. -/
def enumWith (f : Nat → α → β) : Nat → List α → List β
  | _, [] => []
  | n, a :: as => f n a :: enumWith f (n + 1) as

/-! ## PDFProcessingService -/

/-- The `ExtractedData` interface of `PDFProcessingService.ts`: every field
is optional. -/
structure ExtractedData where
  title : Option String := none
  authors : Option String := none
  doi : Option String := none
  background : Option String := none
  research_question : Option String := none
  major_findings : Option String := none
  suggestions : Option String := none
  full_text : Option String := none
  year : Option Int := none
deriving DecidableEq

/-- The `fullText` accumulated by `extractTextFromPDF`: a page whose text
extraction threw is logged and skipped (`continue`), a successful page
appends its text plus a blank line. -/
def pagesFullText : List (Option String) → String
  | [] => ""
  | some t :: rest => t ++ "\n\n" ++ pagesFullText rest
  | none :: rest => pagesFullText rest

/-- Embeds `PDFProcessingService.extractTextFromPDF`.  The per-page outcomes
of the external pdfjs library are the input: `none` for a page whose
extraction threw, `some s` for extracted text `s`.  The inner
`No text content found in PDF` throw is re-wrapped by the surrounding catch
into `Could not extract text from PDF: ...`. -/
def extractTextFromPDF (pages : List (Option String)) : Except String String :=
  let fullText := pagesFullText pages
  if fullText = "" then
    Except.error "Could not extract text from PDF: No text content found in PDF"
  else
    Except.ok (jsTrim fullText)

/-- The section-header scan of `convertTextToMarkdown`: the lowercased line
is tested with `includes` against each keyword in source order (the regex
`method(s|ology)?` is truthy exactly when the line contains `method`,
because the group is optional). -/
def sectionHeading (lowerLine : String) : Option String :=
  if strIncludes lowerLine "abstract" then some "Abstract"
  else if strIncludes lowerLine "introduction" then some "Introduction"
  else if strIncludes lowerLine "method" then some "Methods"
  else if strIncludes lowerLine "result" then some "Results"
  else if strIncludes lowerLine "discussion" then some "Discussion"
  else if strIncludes lowerLine "conclusion" then some "Conclusion"
  else none

/-- One loop iteration of `convertTextToMarkdown`: a section line becomes a
heading and is not emitted as body text (`continue`); otherwise line 0
becomes the title heading and any other line is emitted verbatim. -/
def markdownLine (i : Nat) (line : String) : String :=
  match sectionHeading (jsToLower line) with
  | some h => "\n## " ++ h ++ "\n\n"
  | none => if i = 0 then "# " ++ line ++ "\n\n" else line ++ "\n"

/-- Embeds `PDFProcessingService.convertTextToMarkdown`. -/
def convertTextToMarkdown (text : String) : String :=
  let lines := ((jsSplitNewline text).map jsTrim).filter (fun l => l ≠ "")
  String.join (enumWith markdownLine 0 lines)

/-- The metadata prompt of `analyzeWithAI`, over the first 3000 characters
of the markdown. -/
def initialPrompt (markdown : String) : String :=
  "Analyze this academic paper text and extract the following metadata. Return ONLY a JSON object with these fields (omit any fields you don\x27t find):\n\x7b\n  \"title\": \"paper title\",\n  \"authors\": \"author names\",\n  \"doi\": \"DOI if present\",\n  \"year\": \"publication year (as a number)\"\n\x7d\n\nImportant:\n- Look for the title at the beginning of the text\n- Authors are usually listed after the title\n- DOI might be in the format \"doi: 10.xxxx/xxxxx\" or \"https://doi.org/10.xxxx/xxxxx\"\n- Year is usually a 4-digit number near the beginning of the paper\n\nText:\n"
    ++ jsSlice markdown 3000

/-- The content prompt of `analyzeWithAI`, over the first 6000 characters
of the markdown. -/
def contentPrompt (markdown : String) : String :=
  "Analyze this academic paper excerpt and extract the following information. Return ONLY a JSON object with these fields (omit any fields you don\x27t find):\n\x7b\n  \"background\": \"brief summary of the paper\x27s background and context\",\n  \"research_question\": \"main research questions or objectives\",\n  \"major_findings\": \"key findings and results\",\n  \"suggestions\": \"future research suggestions or implications\"\n\x7d\n\nImportant:\n- Background: Look for sections like \"Introduction\", \"Background\", or \"Abstract\"\n- Research Question: Look for explicit questions or objectives\n- Major Findings: Look for results, conclusions, or key findings\n- Suggestions: Look for future work, implications, or recommendations\n\nText:\n"
    ++ jsSlice markdown 6000

/-- Everything after the first opening brace of the list, if any. -/
def afterFirstOpen : List Char → Option (List Char)
  | [] => none
  | c :: rest => if c = '\x7b' then some rest else afterFirstOpen rest

/-- The prefix of the list that ends at its last closing brace, if any. -/
def uptoLastClose : List Char → Option (List Char)
  | [] => none
  | c :: rest =>
    match uptoLastClose rest with
    | some r => some (c :: r)
    | none => if c = '\x7d' then some [c] else none

/-- Embeds `response.match(/\x7b[\s\S]*\x7d/)`: the greedy regex matches
from the first opening brace through the last closing brace after it. -/
def braceSpan (s : String) : Option String :=
  match afterFirstOpen s.data with
  | none => none
  | some rest =>
    match uptoLastClose rest with
    | none => none
    | some r => some ⟨'\x7b' :: r⟩

/-- The partial object with every field absent. -/
def emptyData : ExtractedData := {}

/-- The brace-span match followed by the guarded `JSON.parse` of
`analyzeWithAI`.  The JSON decoder itself is external library behaviour and
is a parameter: `decode s = none` models both a `JSON.parse` exception and
a decoded value that is not a usable object.  Either failure, like a
missing span, degrades to the empty partial object (the source catch only
warns). -/
def parsedOrEmpty (decode : String → Option ExtractedData) (resp : String) :
    ExtractedData :=
  match braceSpan resp with
  | none => emptyData
  | some s =>
    match decode s with
    | some d => d
    | none => emptyData

/-- Field-wise object spread: the later object wins where it has the field. -/
def spreadField (later earlier : Option α) : Option α :=
  match later with
  | some v => some v
  | none => earlier

/-- The merge step of `analyzeWithAI`:
`\x7b ...metadata, ...content, full_text: markdown \x7d`. -/
def mergeData (metadata content : ExtractedData) (markdown : String) :
    ExtractedData :=
  { title := spreadField content.title metadata.title
    authors := spreadField content.authors metadata.authors
    doi := spreadField content.doi metadata.doi
    background := spreadField content.background metadata.background
    research_question :=
      spreadField content.research_question metadata.research_question
    major_findings :=
      spreadField content.major_findings metadata.major_findings
    suggestions := spreadField content.suggestions metadata.suggestions
    full_text := some markdown
    year := spreadField content.year metadata.year }

/-- The minimal record the catch of `analyzeWithAI` returns. -/
def fallbackData (currentYear : Int) (markdown : String) : ExtractedData :=
  { title := some ""
    authors := some "Unknown"
    year := some currentYear
    full_text := some markdown }

/-- Embeds `PDFProcessingService.analyzeWithAI`.  The parameter `ai` is
`AIService.generateCompletion` seen from here: for each prompt either a
completion text or a rejection (network/provider failure).  The source
try/catch wraps the whole body; the only operations in it that can throw
are the two completion calls (each `JSON.parse` sits in its own inner
catch), so the fallback is returned exactly when one of the two calls
rejects, and the function itself never throws. -/
def analyzeWithAI (decode : String → Option ExtractedData)
    (ai : String → Except String String) (currentYear : Int)
    (markdown : String) : ExtractedData :=
  match ai (initialPrompt markdown) with
  | Except.error _ => fallbackData currentYear markdown
  | Except.ok metadataResponse =>
    let metadata := parsedOrEmpty decode metadataResponse
    match ai (contentPrompt markdown) with
    | Except.error _ => fallbackData currentYear markdown
    | Except.ok contentResponse =>
      let content := parsedOrEmpty decode contentResponse
      mergeData metadata content markdown

/-- Model of `file.name.replace(/\.pdf$/i, '')`. -/
def stripPdfExt (name : String) : String :=
  let n := name.data
  if 4 ≤ n.length && jsToLower ⟨n.drop (n.length - 4)⟩ = ".pdf" then
    ⟨n.take (n.length - 4)⟩
  else name

/-- Embeds the result-shaping step of `PDFProcessingService.processPDF`
once the text is extracted: convert to markdown, analyze, then force
`title` (filename fallback), `authors` (`Unknown` fallback), `year`
(always the current year) and `full_text` (always the markdown). -/
def processPDF (decode : String → Option ExtractedData)
    (ai : String → Except String String) (currentYear : Int)
    (fileName : String) (text : String) : ExtractedData :=
  let markdown := convertTextToMarkdown text
  let extractedData := analyzeWithAI decode ai currentYear markdown
  { extractedData with
    title := some (jsOrStr extractedData.title (stripPdfExt fileName))
    authors := some (jsOrStr extractedData.authors "Unknown")
    year := some currentYear
    full_text := some markdown }

/-- Embeds `PDFProcessingService.processPDF` end to end: a text-extraction
failure is rethrown before the markdown/AI pipeline runs. -/
def processPDFFromPages (decode : String → Option ExtractedData)
    (ai : String → Except String String) (currentYear : Int)
    (fileName : String) (pages : List (Option String)) :
    Except String ExtractedData :=
  match extractTextFromPDF pages with
  | Except.error e => Except.error e
  | Except.ok text => Except.ok (processPDF decode ai currentYear fileName text)

/-! ## AIService -/

/-- The `AIModel` row of the `ai_models` table (`AIService.ts`). -/
structure AIModel where
  id : String
  name : String
  provider : String
  api_key : String
  base_url : Option String
  model_name : String
  is_default : Bool
  created_at : String
  updated_at : String
deriving DecidableEq

/-- How many configurations carry the default flag. -/
def countDefaults (db : List AIModel) : Nat :=
  (db.filter (fun m => m.is_default)).length

/-- Embeds `AIService.clearDefaultModels`: one UPDATE over the rows with
`is_default = true`.  `ok = false` models that statement failing; a
PostgreSQL UPDATE is atomic, so a failed statement leaves every row
unchanged, and the source catch turns the failure into a returned
`false`. -/
def clearDefaultModels (ok : Bool) (now : String) (db : List AIModel) :
    List AIModel × Bool :=
  if ok then
    (db.map (fun m =>
      if m.is_default then { m with is_default := false, updated_at := now }
      else m), true)
  else (db, false)

/-- The statement `UPDATE ai_models SET is_default = true, updated_at = now
WHERE id = X` together with the two BEFORE UPDATE triggers init.sql puts on
`ai_models`: `ensure_single_default_ai_model` runs
`UPDATE ai_models SET is_default = false WHERE id != NEW.id` before any row
is written with `is_default = true`, and `update_ai_models_updated_at`
stamps `updated_at` on every row a statement rewrites (including the rows
the trigger's inner UPDATE rewrites).  When no row matches the id, nothing
is written and no trigger fires.  The statement and its trigger effects are
one atomic statement: a failure rolls all of it back. -/
def dbSetDefaultUpdate (now id : String) (db : List AIModel) :
    List AIModel :=
  if db.any (fun m => m.id = id) then
    db.map (fun m =>
      if m.id = id then { m with is_default := true, updated_at := now }
      else { m with is_default := false, updated_at := now })
  else db

/-- Embeds `AIService.setAsDefault`: first `clearDefaultModels` (whose
returned Bool the source never inspects), then the set UPDATE of
`dbSetDefaultUpdate`, trigger included.  `setOk = false` models that
statement failing (rolled back whole), which the catch turns into a
returned `false`. -/
def setAsDefault (clearOk setOk : Bool) (now : String) (id : String)
    (db : List AIModel) : List AIModel × Bool :=
  let db1 := (clearDefaultModels clearOk now db).1
  if setOk then (dbSetDefaultUpdate now id db1, true)
  else (db1, false)

/-- Embeds `AIService.getDefaultModel`: `maybeSingle()` yields the row when
exactly one row matches `is_default = true`, `null` when none does, and an
error (caught, hence also `null`) when several do. -/
def getDefaultModel (db : List AIModel) : Option AIModel :=
  match db.filter (fun m => m.is_default) with
  | [m] => some m
  | _ => none

/-- Embeds `AIService.getModelById`, with the same `maybeSingle()`
behaviour on the rows matching the id. -/
def getModelById (id : String) (db : List AIModel) : Option AIModel :=
  match db.filter (fun m => m.id = id) with
  | [m] => some m
  | _ => none

/-- A paper-like context record as interpolated by `generateCompletion`
(`paper.name`, `paper.author`, `paper.year`, `paper.abstract`,
`paper.doi`). -/
structure PaperRecord where
  name : String
  author : Option String
  year : Option Int
  abstract : Option String
  doi : Option String
deriving DecidableEq

/-- Rendering of the interpolation `paper.year || 'Unknown'`
(a missing year and the number 0 are falsy). -/
def renderYear : Option Int → String
  | some y => if y = 0 then "Unknown" else toString y
  | none => "Unknown"

/-- One entry of `papers.map((paper, index) => ...)` in
`generateCompletion`: the template literal opens and closes with a
newline. -/
def paperBlock (i : Nat) (p : PaperRecord) : String :=
  "\nPAPER " ++ toString (i + 1) ++ ":\nTitle: " ++ p.name ++ "\nAuthor: "
    ++ jsOrStr p.author "Unknown" ++ "\nYear: " ++ renderYear p.year
    ++ "\nAbstract: " ++ jsOrStr p.abstract "No abstract provided."
    ++ "\nDOI: " ++ jsOrStr p.doi "N/A" ++ "\n"

/-- The closing instruction of the research-assistant template. -/
def insufficiencyInstruction : String :=
  "If the papers don\x27t contain information to answer the question, please state that clearly."

/-- The structured research-assistant prompt `generateCompletion` builds
when context records are supplied. -/
def papersTemplate (prompt : String) (papers : List PaperRecord) : String :=
  "I want you to act as an academic research assistant. I\x27ll provide you with information about academic papers, and you\x27ll help answer questions about them.\n\nCONTEXT:\nThe following are summaries of academic papers related to the query:\n\n"
    ++ jsJoin "\n" (enumWith paperBlock 0 papers)
    ++ "\n\nBased on the above academic papers, please answer the following question:\n"
    ++ prompt
    ++ "\n\nYour response should be clear, factual, and directly reference the papers when appropriate. "
    ++ insufficiencyInstruction

/-- The prompt augmentation of `generateCompletion`: the paper-records
branch (`papers && papers.length > 0`) takes priority, then the truthy
free-text context branch, else the raw prompt. -/
def buildPrompt (prompt : String) (context : Option String)
    (papers : List PaperRecord) : String :=
  if 0 < papers.length then papersTemplate prompt papers
  else if jsTruthyStr context then
    "CONTEXT: " ++ (match context with | some c => c | none => "")
      ++ "\n\nQUESTION: " ++ prompt
      ++ "\n\nPlease provide a helpful response based on the context provided."
  else prompt

/-- The error taxonomy of `generateCompletion` and the provider builders. -/
inductive AIError where
  | noModelConfigured
  | providerNotImplemented (provider : String)
  | providerRequestFailed (message : String)
  | emptyCompletion
deriving DecidableEq

/-- One outbound chat-completion POST. -/
structure NetRequest where
  endpoint : String
  apiKey : String
  model : String
  prompt : String
deriving DecidableEq

/-- The transport's view of the response to one POST: the HTTP success
flag and status, the parseable upstream `error.message` if any, and the
`choices[i].message.content` texts. -/
structure NetResponse where
  ok : Bool
  errorMessage : Option String
  status : Nat
  choices : List String
deriving DecidableEq

/-- Shared response handling of the two implemented provider builders: a
non-success status fails with the upstream message (or `API Error:
<status>`), zero choices fail with `No content in API response`, else the
first choice is returned. -/
def chatCompletionResult (resp : NetResponse) : Except AIError String :=
  if resp.ok = false then
    Except.error (AIError.providerRequestFailed
      (match resp.errorMessage with
       | some m => m
       | none => "API Error: " ++ toString resp.status))
  else
    match resp.choices with
    | c :: _ => Except.ok c
    | [] => Except.error AIError.emptyCompletion

/-- Embeds `generateSiliconFlowCompletion`: endpoint from the base URL
override or the provider default, one request, shared response handling.
The request list records the outbound network traffic. -/
def generateSiliconFlowCompletion (net : NetRequest → NetResponse)
    (m : AIModel) (prompt : String) : Except AIError String × List NetRequest :=
  let baseUrl := jsOrStr m.base_url "https://api.siliconflow.cn/v1"
  let req : NetRequest :=
    { endpoint := baseUrl ++ "/chat/completions", apiKey := m.api_key
      model := m.model_name, prompt := prompt }
  (chatCompletionResult (net req), [req])

/-- Embeds `generateOpenRouterCompletion`, identical shape with the
OpenRouter default base URL. -/
def generateOpenRouterCompletion (net : NetRequest → NetResponse)
    (m : AIModel) (prompt : String) : Except AIError String × List NetRequest :=
  let baseUrl := jsOrStr m.base_url "https://openrouter.ai/api/v1"
  let req : NetRequest :=
    { endpoint := baseUrl ++ "/chat/completions", apiKey := m.api_key
      model := m.model_name, prompt := prompt }
  (chatCompletionResult (net req), [req])

/-- Embeds `AIService.generateCompletion`: resolve the model (explicit id
if the id is truthy, else the default), fail with `noModelConfigured` when
resolution yields nothing, build the augmented prompt, then dispatch on
the provider tag — the unimplemented providers throw without any network
traffic.  The second component lists every outbound request the call
made. -/
def generateCompletion (net : NetRequest → NetResponse) (db : List AIModel)
    (prompt : String) (modelId : Option String) (context : Option String)
    (papers : List PaperRecord) : Except AIError String × List NetRequest :=
  let model? :=
    if jsTruthyStr modelId then
      getModelById (match modelId with | some i => i | none => "") db
    else getDefaultModel db
  match model? with
  | none => (Except.error AIError.noModelConfigured, [])
  | some model =>
    let promptContent := buildPrompt prompt context papers
    if model.provider = "siliconflow" then
      generateSiliconFlowCompletion net model promptContent
    else if model.provider = "openai" then
      (Except.error (AIError.providerNotImplemented "openai"), [])
    else if model.provider = "anthropic" then
      (Except.error (AIError.providerNotImplemented "anthropic"), [])
    else if model.provider = "google" then
      (Except.error (AIError.providerNotImplemented "google"), [])
    else if model.provider = "openrouter" then
      generateOpenRouterCompletion net model promptContent
    else (Except.error (AIError.providerNotImplemented model.provider), [])

/-! ## FirecrawlService.getApiKey -/

/-- The hard-coded fallback key of `FirecrawlService`. -/
def DEFAULT_API_KEY : String := "fc-71889ec5fbbd46838335b514190d059d"

/-- Outcome of the `firecrawl_api_keys` lookup inside `getApiKey`:
`.single()` errors both on a query failure and when no row exists, and a
thrown exception lands in the same fallback path, so all of those are
`err`; otherwise the newest row's `api_key` is returned. -/
inductive KeyLookup where
  | err
  | row (api_key : String)
deriving DecidableEq

/-- Embeds `FirecrawlService.getApiKey`: a truthy cached key is returned
at once; a lookup error falls back to the built-in default; a truthy
fetched key is cached and returned; a falsy fetched key also falls back to
the default.  The second component is the cache after the call. -/
def getApiKey (cachedApiKey : Option String) (lookup : KeyLookup) :
    String × Option String :=
  if jsTruthyStr cachedApiKey then
    ((match cachedApiKey with | some k => k | none => ""), cachedApiKey)
  else
    match lookup with
    | KeyLookup.err => (DEFAULT_API_KEY, cachedApiKey)
    | KeyLookup.row k =>
      if k ≠ "" then (k, some k) else (DEFAULT_API_KEY, cachedApiKey)

/-! ## The PDF batch-upload loop -/

/-- Hex digit test for the `\\u[0-9a-fA-F]\x7b4\x7d` pattern. -/
def isHexDigit (c : Char) : Bool :=
  ('0' ≤ c && c ≤ '9') || ('a' ≤ c && c ≤ 'f') || ('A' ≤ c && c ≤ 'F')

/-- Does the list start with `u` followed by four hex digits, completing a
backslash-u escape? -/
def escapeHead : List Char → Bool
  | 'u' :: a :: b :: c :: d :: _ =>
    isHexDigit a && isHexDigit b && isHexDigit c && isHexDigit d
  | _ => false

/-- Worker for `removeUnicodeEscapes`; the fuel starts at the list length
and bounds the number of scan steps, which keeps the recursion structural
(each step consumes at least one character, so the fuel never runs out
before the list does). -/
def removeUEAux : Nat → List Char → List Char
  | _, [] => []
  | 0, l => l
  | fuel + 1, c :: rest =>
    if c = '\\' && escapeHead rest then removeUEAux fuel (rest.drop 5)
    else c :: removeUEAux fuel rest

/-- The first replace of `sanitizeText`: delete every literal backslash-u
escape sequence (backslash, `u`, four hex digits), scanning left to right
as the global regex does. -/
def removeUnicodeEscapes (l : List Char) : List Char :=
  removeUEAux l.length l

/-- The control characters the second replace of `sanitizeText` strips. -/
def isStrippedCtrl (c : Char) : Bool :=
  c.toNat ≤ 8 || c.toNat = 11 || c.toNat = 12
    || (14 ≤ c.toNat && c.toNat ≤ 31)

/-- The string transformation inside `sanitizeText`.  The NFKD
normalization step is the identity here: it is external Unicode library
behaviour, the identity on the ASCII data these claims range over, and no
claim depends on it. -/
def sanitizeCore (s : String) : String :=
  jsTrim ⟨(removeUnicodeEscapes s.data).filter (fun c => !isStrippedCtrl c)⟩

/-- Embeds the `sanitizeText` helper of the upload view: `null` and
`undefined` map to `null`, anything else is cleaned. -/
def sanitizeText : Option String → Option String
  | none => none
  | some t => some (sanitizeCore t)

/-- One row of the `pdf_uploads` insert. -/
structure PdfRow where
  filename : String
  title : Option String
  authors : Option String
  year : Int
  doi : Option String
  background : Option String
  research_question : Option String
  major_findings : Option String
  suggestions : Option String
  full_text : Option String
deriving DecidableEq

/-- The `pdf_uploads` insert payload built in the upload loop;
`d = none` models `processedFile.extractedData` being `undefined`
(processing failed), making every optional-chained field `undefined`. -/
def pdfUploadRow (currentYear : Int) (filename : String)
    (d : Option ExtractedData) : PdfRow :=
  { filename := filename
    title := sanitizeText (d.bind (fun x => x.title))
    authors := sanitizeText (d.bind (fun x => x.authors))
    year := jsOrInt (d.bind (fun x => x.year)) currentYear
    doi := sanitizeText (d.bind (fun x => x.doi))
    background := sanitizeText (d.bind (fun x => x.background))
    research_question := sanitizeText (d.bind (fun x => x.research_question))
    major_findings := sanitizeText (d.bind (fun x => x.major_findings))
    suggestions := sanitizeText (d.bind (fun x => x.suggestions))
    full_text := sanitizeText (d.bind (fun x => x.full_text)) }

/-- Per-file UI status, as in the upload view. -/
inductive ProcStatus where
  | pending
  | processing
  | success
  | error
deriving DecidableEq

/-- The external outcomes driving one iteration of the upload loop:
the storage upload, the per-page text extraction feeding
`PDFProcessingService.processPDF`, the `pdf_uploads` insert and the
`batch_pdfs` insert.  A `some msg` in an error slot is that step failing
with message `msg`. -/
structure FileOps where
  fileName : String
  uploadError : Option String
  pages : List (Option String)
  insertError : Option String
  insertedId : Nat
  linkError : Option String
deriving DecidableEq

/-- What one loop iteration leaves behind for its file: the UI status and
error message, the extracted data if any, the persisted `pdf_uploads` row
if the insert ran and succeeded, and the `batch_pdfs` link if it was
created. -/
structure FileResult where
  status : ProcStatus
  errorMsg : Option String
  extracted : Option ExtractedData
  persisted : Option PdfRow
  linked : Option Nat
deriving DecidableEq

/-- One iteration of the `uploadAndProcessFiles` loop body for one file.
The steps, as in the source: the storage upload throws into the per-file
catch; the local `processPDF` helper never throws — it catches the
service error and records status `error` with the message, leaving
`extractedData` undefined; the `pdf_uploads` insert then runs regardless
and its failure, like the `batch_pdfs` link failure, lands in the
per-file catch.  Nothing escapes the iteration. -/
def processFile (decode : String → Option ExtractedData)
    (ai : String → Except String String) (currentYear : Int)
    (ops : FileOps) : FileResult :=
  match ops.uploadError with
  | some m =>
    { status := ProcStatus.error
      errorMsg := some ("Failed to upload file: " ++ m)
      extracted := none, persisted := none, linked := none }
  | none =>
    let serviceResult :=
      processPDFFromPages decode ai currentYear ops.fileName ops.pages
    let st := match serviceResult with
      | Except.ok _ => ProcStatus.success
      | Except.error _ => ProcStatus.error
    let emsg : Option String := match serviceResult with
      | Except.ok _ => none
      | Except.error e => some e
    let ext : Option ExtractedData := match serviceResult with
      | Except.ok d => some d
      | Except.error _ => none
    let row := pdfUploadRow currentYear ops.fileName ext
    match ops.insertError with
    | some m =>
      { status := ProcStatus.error
        errorMsg := some ("Failed to create PDF record: " ++ m)
        extracted := ext, persisted := none, linked := none }
    | none =>
      match ops.linkError with
      | some m =>
        { status := ProcStatus.error
          errorMsg := some ("Failed to link PDF to batch: " ++ m)
          extracted := ext, persisted := some row, linked := none }
      | none =>
        { status := st, errorMsg := emsg, extracted := ext
          persisted := some row, linked := some ops.insertedId }

/-- The whole upload loop: the files are processed strictly one after
another, and each iteration's outcome is a function of that file's own
external outcomes only. -/
def runBatch (decode : String → Option ExtractedData)
    (ai : String → Except String String) (currentYear : Int)
    (ops : List FileOps) : List FileResult :=
  ops.map (processFile decode ai currentYear)

/-- The `pdf_uploads` row the upload loop inserts for a file whose storage
upload and text extraction succeeded with extracted text `text`: the
success-path composition of `PDFProcessingService.processPDF` and the
insert payload. -/
def persistedRunRow (decode : String → Option ExtractedData)
    (ai : String → Except String String) (currentYear : Int)
    (fileName text : String) : PdfRow :=
  pdfUploadRow currentYear fileName
    (some (processPDF decode ai currentYear fileName text))

/-! ## Containment lemmas for the string model -/

theorem strData_append (a b : String) : (a ++ b).data = a.data ++ b.data := rfl

theorem listContainsSub_nil (hay : List Char) :
    listContainsSub [] hay = true := by
  induction hay with
  | nil => rfl
  | cons c bs ih => simp [listContainsSub, listPrefixOf]

theorem listPrefixOf_append_right (n l b : List Char)
    (h : listPrefixOf n l = true) : listPrefixOf n (l ++ b) = true := by
  induction n generalizing l with
  | nil => rfl
  | cons a as ih =>
    cases l with
    | nil => simp [listPrefixOf] at h
    | cons x xs =>
      simp only [listPrefixOf, Bool.and_eq_true] at h ⊢
      exact ⟨h.1, ih xs h.2⟩

theorem listContainsSub_append_left (n a b : List Char)
    (h : listContainsSub n a = true) : listContainsSub n (a ++ b) = true := by
  induction a with
  | nil =>
    simp only [listContainsSub, List.isEmpty_iff] at h
    subst h
    exact listContainsSub_nil _
  | cons c cs ih =>
    simp only [listContainsSub, Bool.or_eq_true] at h ⊢
    rcases h with h | h
    · exact Or.inl (listPrefixOf_append_right n (c :: cs) b h)
    · exact Or.inr (ih h)

theorem listContainsSub_append_right (n a b : List Char)
    (h : listContainsSub n b = true) : listContainsSub n (a ++ b) = true := by
  induction a with
  | nil => exact h
  | cons c cs ih =>
    simp only [listContainsSub, Bool.or_eq_true]
    exact Or.inr ih

theorem listPrefixOf_refl (n : List Char) : listPrefixOf n n = true := by
  induction n with
  | nil => rfl
  | cons a as ih => simp [listPrefixOf, ih]

theorem listContainsSub_self (n : List Char) : listContainsSub n n = true := by
  cases n with
  | nil => rfl
  | cons c cs =>
    simp only [listContainsSub, Bool.or_eq_true]
    exact Or.inl (listPrefixOf_refl _)

theorem strIncludes_append_left (a b n : String)
    (h : strIncludes a n = true) : strIncludes (a ++ b) n = true := by
  unfold strIncludes at h ⊢
  rw [strData_append]
  exact listContainsSub_append_left _ _ _ h

theorem strIncludes_append_right (a b n : String)
    (h : strIncludes b n = true) : strIncludes (a ++ b) n = true := by
  unfold strIncludes at h ⊢
  rw [strData_append]
  exact listContainsSub_append_right _ _ _ h

theorem strIncludes_self (n : String) : strIncludes n n = true :=
  listContainsSub_self n.data

theorem jsJoin_includes (sep : String) (l : List String) (s n : String)
    (hs : s ∈ l) (h : strIncludes s n = true) :
    strIncludes (jsJoin sep l) n = true := by
  induction l with
  | nil => cases hs
  | cons x xs ih =>
    cases xs with
    | nil =>
      rcases hs with _ | ⟨_, h0⟩
      · exact h
      · cases h0
    | cons y ys =>
      show strIncludes (x ++ sep ++ jsJoin sep (y :: ys)) n = true
      rcases hs with _ | ⟨_, hs⟩
      · exact strIncludes_append_left _ _ _ (strIncludes_append_left _ _ _ h)
      · exact strIncludes_append_right _ _ _ (ih hs)

theorem paperBlock_includes_name (i : Nat) (p : PaperRecord) :
    strIncludes (paperBlock i p) p.name = true := by
  unfold paperBlock
  repeat
    first
    | exact strIncludes_append_right _ _ _ (strIncludes_self _)
    | apply strIncludes_append_left

theorem enumWith_paperBlock_mem (papers : List PaperRecord) (p : PaperRecord)
    (hp : p ∈ papers) (n : Nat) :
    ∃ b ∈ enumWith paperBlock n papers, strIncludes b p.name = true := by
  induction papers generalizing n with
  | nil => cases hp
  | cons q rest ih =>
    rcases hp with _ | ⟨_, hp⟩
    · exact ⟨paperBlock n p, List.mem_cons_self _ _, paperBlock_includes_name n p⟩
    · obtain ⟨b, hb, hbn⟩ := ih hp (n + 1)
      exact ⟨b, List.mem_cons_of_mem _ hb, hbn⟩

/-! ## Claim theorems -/

/-- C2 (counterexample): on the input
`"My Title\nSome intro\nAbstract\nThis is the abstract text"` the line
`This is the abstract text` is NOT emitted as body text — its lowercased
form contains the keyword `abstract`, so `convertTextToMarkdown` turns it
into a second `## Abstract` heading and drops the line, contradicting the
claim. -/
theorem convertTextToMarkdown_abstract_line_cex :
    strIncludes
      (convertTextToMarkdown
        "My Title\nSome intro\nAbstract\nThis is the abstract text")
      "This is the abstract text" = false
    ∧ convertTextToMarkdown
        "My Title\nSome intro\nAbstract\nThis is the abstract text"
      = "# My Title\n\nSome intro\n\n## Abstract\n\n\n## Abstract\n\n" := by
  constructor
  · decide
  · decide

/-- C2 (amended): the input yields the heading `# My Title`, the body line
`Some intro`, and the heading `## Abstract` twice — once for the line
`Abstract` and once for the line `This is the abstract text`, whose
lowercased form also contains the keyword and is therefore emitted as a
heading, never as body text; the word `Abstract` is never emitted as body
text either. -/
theorem convertTextToMarkdown_abstract_heading :
    convertTextToMarkdown
        "My Title\nSome intro\nAbstract\nThis is the abstract text"
      = "# My Title\n\nSome intro\n\n## Abstract\n\n\n## Abstract\n\n"
    ∧ strIncludes
        (convertTextToMarkdown
          "My Title\nSome intro\nAbstract\nThis is the abstract text")
        "# My Title" = true
    ∧ strIncludes
        (convertTextToMarkdown
          "My Title\nSome intro\nAbstract\nThis is the abstract text")
        "Some intro" = true
    ∧ strIncludes
        (convertTextToMarkdown
          "My Title\nSome intro\nAbstract\nThis is the abstract text")
        "## Abstract" = true := by
  refine ⟨by decide, by decide, by decide, by decide⟩

theorem pagesFullText_eq_empty (pages : List (Option String)) :
    pagesFullText pages = "" ↔ ∀ p ∈ pages, p = none := by
  induction pages with
  | nil => simp [pagesFullText]
  | cons p rest ih =>
    cases p with
    | none => simpa [pagesFullText] using ih
    | some t =>
      simp only [pagesFullText]
      constructor
      · intro h
        have hd : ((t ++ "\n\n") ++ pagesFullText rest).data = ([] : List Char) := by
          rw [show t ++ "\n\n" ++ pagesFullText rest = (t ++ "\n\n") ++ pagesFullText rest from rfl] at h
          rw [h]
        rw [strData_append, strData_append] at hd
        rcases List.append_eq_nil.mp hd with ⟨hl, _⟩
        rcases List.append_eq_nil.mp hl with ⟨_, hnl⟩
        cases hnl
      · intro h
        exact absurd (h (some t) (List.mem_cons_self _ _)) (by simp)

/-- C1: if either completion call of `analyzeWithAI` rejects with a
network/provider error, the caller receives exactly the deterministic
fallback record — empty title, authors `Unknown`, the current year, and
the markdown as `full_text` — and, the embedding being a total function,
nothing is thrown. -/
theorem analyzeWithAI_network_failure_fallback
    (decode : String → Option ExtractedData)
    (ai : String → Except String String) (currentYear : Int)
    (markdown : String)
    (h : (∃ e, ai (initialPrompt markdown) = Except.error e)
       ∨ (∃ e, ai (contentPrompt markdown) = Except.error e)) :
    analyzeWithAI decode ai currentYear markdown
        = fallbackData currentYear markdown
    ∧ fallbackData currentYear markdown
        = { title := some "", authors := some "Unknown",
            year := some currentYear, full_text := some markdown } := by
  refine ⟨?_, rfl⟩
  unfold analyzeWithAI
  cases h1 : ai (initialPrompt markdown) with
  | error e => rfl
  | ok r1 =>
    cases h2 : ai (contentPrompt markdown) with
    | error e => rfl
    | ok r2 =>
      rcases h with ⟨e, he⟩ | ⟨e, he⟩
      · rw [h1] at he; cases he
      · rw [h2] at he; cases he

/-- C1 witness at a concrete failing completion oracle. -/
theorem analyzeWithAI_network_failure_fallback_witness :
    (∃ e, (fun _ : String => (Except.error "network" : Except String String))
        (initialPrompt "# T") = Except.error e)
    ∧ analyzeWithAI (fun _ => none) (fun _ => Except.error "network") 2026 "# T"
        = fallbackData 2026 "# T" :=
  ⟨⟨"network", rfl⟩,
   (analyzeWithAI_network_failure_fallback (fun _ => none)
     (fun _ => Except.error "network") 2026 "# T"
     (Or.inl ⟨"network", rfl⟩)).1⟩

/-- C8: when the metadata completion response carries no parseable JSON
(no brace span, or an undecodable span), `analyzeWithAI` does not throw:
the metadata degrades to the empty partial object, and whatever the second
call does, the produced record has `full_text` set to the markdown. -/
theorem analyzeWithAI_parse_failure_nonfatal
    (decode : String → Option ExtractedData)
    (ai : String → Except String String) (currentYear : Int)
    (markdown r1 : String)
    (h1 : ai (initialPrompt markdown) = Except.ok r1)
    (h2 : braceSpan r1 = none ∨ ∀ s, braceSpan r1 = some s → decode s = none) :
    parsedOrEmpty decode r1 = emptyData
    ∧ analyzeWithAI decode ai currentYear markdown
        = (match ai (contentPrompt markdown) with
           | Except.error _ => fallbackData currentYear markdown
           | Except.ok r2 =>
              mergeData emptyData (parsedOrEmpty decode r2) markdown)
    ∧ (analyzeWithAI decode ai currentYear markdown).full_text
        = some markdown := by
  have hpe : parsedOrEmpty decode r1 = emptyData := by
    unfold parsedOrEmpty
    rcases h2 with h2 | h2
    · rw [h2]
    · cases hb : braceSpan r1 with
      | none => rfl
      | some s => simp [h2 s hb]
  have hmain : analyzeWithAI decode ai currentYear markdown
      = (match ai (contentPrompt markdown) with
         | Except.error _ => fallbackData currentYear markdown
         | Except.ok r2 =>
            mergeData emptyData (parsedOrEmpty decode r2) markdown) := by
    unfold analyzeWithAI
    rw [h1]
    simp only [hpe]
  refine ⟨hpe, hmain, ?_⟩
  rw [hmain]
  cases ai (contentPrompt markdown) <;> rfl

/-- C8 witness at a concrete unparseable response. -/
theorem analyzeWithAI_parse_failure_nonfatal_witness :
    braceSpan "no json" = none
    ∧ (analyzeWithAI (fun _ => none) (fun _ => Except.ok "no json") 2026
        "abc").full_text = some "abc" :=
  ⟨rfl,
   (analyzeWithAI_parse_failure_nonfatal (fun _ => none)
     (fun _ => Except.ok "no json") 2026 "abc" "no json" rfl
     (Or.inl rfl)).2.2⟩

/-- C9 (counterexample): a PDF whose only page yields the whitespace text
`" "` has whitespace-only concatenated text, yet `extractTextFromPDF` does
NOT fail — the accumulated `fullText` is `" \n\n"`, which is truthy, so the
trimmed empty string is returned and the metadata pipeline IS invoked,
contradicting the claim for whitespace-only extractions. -/
theorem extractTextFromPDF_whitespace_cex :
    extractTextFromPDF [some " "] = Except.ok ""
    ∧ processPDFFromPages (fun _ => none) (fun _ => Except.error "net") 2026
        "f.pdf" [some " "]
      = Except.ok
          { title := some "f", authors := some "Unknown",
            year := some 2026, full_text := some "" } := by
  constructor
  · rfl
  · rfl

/-- C9 (amended): `extractTextFromPDF` fails with the distinct
no-text-content error exactly when no page yields a text object at all
(zero pages, or every page extraction threw) — the check is `!fullText`,
and any successful page, even with empty or whitespace text, makes
`fullText` truthy via the appended blank line.  When it does fail,
`processPDF` rethrows the error before the markdown/AI pipeline is
invoked. -/
theorem extractTextFromPDF_empty_error (pages : List (Option String))
    (decode : String → Option ExtractedData)
    (ai : String → Except String String) (currentYear : Int)
    (fileName : String) :
    (extractTextFromPDF pages
        = Except.error
            "Could not extract text from PDF: No text content found in PDF"
      ↔ ∀ p ∈ pages, p = none)
    ∧ ((∀ p ∈ pages, p = none) →
        processPDFFromPages decode ai currentYear fileName pages
          = Except.error
              "Could not extract text from PDF: No text content found in PDF") := by
  have hiff : extractTextFromPDF pages
      = Except.error
          "Could not extract text from PDF: No text content found in PDF"
    ↔ ∀ p ∈ pages, p = none := by
    simp only [extractTextFromPDF]
    by_cases hc : pagesFullText pages = ""
    · rw [if_pos hc]
      exact iff_of_true rfl ((pagesFullText_eq_empty pages).mp hc)
    · rw [if_neg hc]
      exact iff_of_false (by intro h; cases h)
        (fun h => hc ((pagesFullText_eq_empty pages).mpr h))
  refine ⟨hiff, fun h => ?_⟩
  unfold processPDFFromPages
  rw [hiff.mpr h]

/-- C9 witness: a PDF where every page extraction failed. -/
theorem extractTextFromPDF_empty_error_witness :
    (∀ p ∈ ([none] : List (Option String)), p = none)
    ∧ processPDFFromPages (fun _ => none) (fun _ => Except.ok "x") 2026
        "f.pdf" [none]
      = Except.error
          "Could not extract text from PDF: No text content found in PDF" :=
  ⟨by decide,
   (extractTextFromPDF_empty_error [none] (fun _ => none)
     (fun _ => Except.ok "x") 2026 "f.pdf").2 (by decide)⟩

set_option maxRecDepth 8000

/-- C3 (counterexample): in a run whose model responses contain no JSON at
all — so every metadata field is absent from the structured response — the
persisted `pdf_uploads` row nevertheless carries a fabricated title (the
file name with `.pdf` stripped), fabricated authors `Unknown`, and the
current year, because `processPDF` force-fills those three fields before
the insert. -/
theorem pdfUploadRow_fabricates_cex :
    (pdfUploadRow 2026 "paper.pdf"
        (some (processPDF (fun _ => none) (fun _ => Except.ok "no json")
          2026 "paper.pdf" "Hello world"))).title = some "paper"
    ∧ (pdfUploadRow 2026 "paper.pdf"
        (some (processPDF (fun _ => none) (fun _ => Except.ok "no json")
          2026 "paper.pdf" "Hello world"))).authors = some "Unknown"
    ∧ (pdfUploadRow 2026 "paper.pdf"
        (some (processPDF (fun _ => none) (fun _ => Except.ok "no json")
          2026 "paper.pdf" "Hello world"))).year = 2026 := by
  refine ⟨by decide, by decide, by decide⟩

theorem persistedRunRow_fields (decode : String → Option ExtractedData)
    (ai : String → Except String String) (currentYear : Int)
    (fileName text : String) :
    (persistedRunRow decode ai currentYear fileName text).doi
        = sanitizeText ((analyzeWithAI decode ai currentYear
            (convertTextToMarkdown text)).doi)
    ∧ (persistedRunRow decode ai currentYear fileName text).background
        = sanitizeText ((analyzeWithAI decode ai currentYear
            (convertTextToMarkdown text)).background)
    ∧ (persistedRunRow decode ai currentYear fileName text).research_question
        = sanitizeText ((analyzeWithAI decode ai currentYear
            (convertTextToMarkdown text)).research_question)
    ∧ (persistedRunRow decode ai currentYear fileName text).major_findings
        = sanitizeText ((analyzeWithAI decode ai currentYear
            (convertTextToMarkdown text)).major_findings)
    ∧ (persistedRunRow decode ai currentYear fileName text).suggestions
        = sanitizeText ((analyzeWithAI decode ai currentYear
            (convertTextToMarkdown text)).suggestions)
    ∧ (persistedRunRow decode ai currentYear fileName text).title
        = sanitizeText (some (jsOrStr ((analyzeWithAI decode ai currentYear
            (convertTextToMarkdown text)).title) (stripPdfExt fileName)))
    ∧ (persistedRunRow decode ai currentYear fileName text).authors
        = sanitizeText (some (jsOrStr ((analyzeWithAI decode ai currentYear
            (convertTextToMarkdown text)).authors) "Unknown"))
    ∧ (persistedRunRow decode ai currentYear fileName text).year
        = jsOrInt (some currentYear) currentYear :=
  ⟨rfl, rfl, rfl, rfl, rfl, rfl, rfl, rfl⟩

/-- C3 (amended): per run and per field.  The five fields the insert takes
straight from the merged AI response — `doi`, `background`,
`research_question`, `major_findings`, `suggestions` — are left null in
the persisted row whenever they are absent from the model's structured
response: absent from both decoded partial objects on the two-completion
path, and vacuously absent when a completion call failed (the fallback
record carries none of them).  By contrast `title`, `authors` and `year`
are always populated: the persisted year is unconditionally the current
year, the title and authors cells are never null, and when the response
carries no title or no authors they are fabricated as the file name (with
`.pdf` stripped) and `Unknown`. -/
theorem pdfUploadRow_absent_fields
    (decode : String → Option ExtractedData)
    (ai : String → Except String String) (currentYear : Int)
    (fileName text : String) :
    (persistedRunRow decode ai currentYear fileName text).year = currentYear
    ∧ (persistedRunRow decode ai currentYear fileName text).title.isSome
        = true
    ∧ (persistedRunRow decode ai currentYear fileName text).authors.isSome
        = true
    ∧ (∀ r1 r2,
        ai (initialPrompt (convertTextToMarkdown text)) = Except.ok r1 →
        ai (contentPrompt (convertTextToMarkdown text)) = Except.ok r2 →
        ((parsedOrEmpty decode r1).doi = none →
          (parsedOrEmpty decode r2).doi = none →
          (persistedRunRow decode ai currentYear fileName text).doi = none)
        ∧ ((parsedOrEmpty decode r1).background = none →
          (parsedOrEmpty decode r2).background = none →
          (persistedRunRow decode ai currentYear fileName text).background
            = none)
        ∧ ((parsedOrEmpty decode r1).research_question = none →
          (parsedOrEmpty decode r2).research_question = none →
          (persistedRunRow decode ai currentYear fileName
            text).research_question = none)
        ∧ ((parsedOrEmpty decode r1).major_findings = none →
          (parsedOrEmpty decode r2).major_findings = none →
          (persistedRunRow decode ai currentYear fileName
            text).major_findings = none)
        ∧ ((parsedOrEmpty decode r1).suggestions = none →
          (parsedOrEmpty decode r2).suggestions = none →
          (persistedRunRow decode ai currentYear fileName text).suggestions
            = none)
        ∧ ((parsedOrEmpty decode r1).title = none →
          (parsedOrEmpty decode r2).title = none →
          (persistedRunRow decode ai currentYear fileName text).title
            = some (sanitizeCore (stripPdfExt fileName)))
        ∧ ((parsedOrEmpty decode r1).authors = none →
          (parsedOrEmpty decode r2).authors = none →
          (persistedRunRow decode ai currentYear fileName text).authors
            = some "Unknown"))
    ∧ (((∃ e, ai (initialPrompt (convertTextToMarkdown text))
            = Except.error e)
        ∨ (∃ e, ai (contentPrompt (convertTextToMarkdown text))
            = Except.error e)) →
        (persistedRunRow decode ai currentYear fileName text).doi = none
        ∧ (persistedRunRow decode ai currentYear fileName text).background
            = none
        ∧ (persistedRunRow decode ai currentYear fileName
            text).research_question = none
        ∧ (persistedRunRow decode ai currentYear fileName
            text).major_findings = none
        ∧ (persistedRunRow decode ai currentYear fileName text).suggestions
            = none
        ∧ (persistedRunRow decode ai currentYear fileName text).title
            = some (sanitizeCore (stripPdfExt fileName))
        ∧ (persistedRunRow decode ai currentYear fileName text).authors
            = some "Unknown") := by
  obtain ⟨hdoi, hbg, hrq, hmf, hsg, hti, hau, hyr⟩ :=
    persistedRunRow_fields decode ai currentYear fileName text
  refine ⟨?_, ?_, ?_, ?_, ?_⟩
  · rw [hyr]
    simp [jsOrInt]
  · rw [hti]; rfl
  · rw [hau]; rfl
  · intro r1 r2 h1 h2
    have hA2 : analyzeWithAI decode ai currentYear
        (convertTextToMarkdown text)
        = mergeData (parsedOrEmpty decode r1) (parsedOrEmpty decode r2)
          (convertTextToMarkdown text) := by
      unfold analyzeWithAI
      rw [h1, h2]
    refine ⟨?_, ?_, ?_, ?_, ?_, ?_, ?_⟩
    · intro ha hb
      rw [hdoi, hA2]
      simp only [mergeData]
      rw [ha, hb]
      rfl
    · intro ha hb
      rw [hbg, hA2]
      simp only [mergeData]
      rw [ha, hb]
      rfl
    · intro ha hb
      rw [hrq, hA2]
      simp only [mergeData]
      rw [ha, hb]
      rfl
    · intro ha hb
      rw [hmf, hA2]
      simp only [mergeData]
      rw [ha, hb]
      rfl
    · intro ha hb
      rw [hsg, hA2]
      simp only [mergeData]
      rw [ha, hb]
      rfl
    · intro ha hb
      rw [hti, hA2]
      simp only [mergeData]
      rw [ha, hb]
      rfl
    · intro ha hb
      rw [hau, hA2]
      simp only [mergeData]
      rw [ha, hb]
      rfl
  · intro h
    have hA3 : analyzeWithAI decode ai currentYear
        (convertTextToMarkdown text)
        = fallbackData currentYear (convertTextToMarkdown text) := by
      unfold analyzeWithAI
      cases hc1 : ai (initialPrompt (convertTextToMarkdown text)) with
      | error e => rfl
      | ok r1 =>
        cases hc2 : ai (contentPrompt (convertTextToMarkdown text)) with
        | error e => rfl
        | ok r2 =>
          rcases h with ⟨e, he⟩ | ⟨e, he⟩
          · rw [hc1] at he; cases he
          · rw [hc2] at he; cases he
    refine ⟨?_, ?_, ?_, ?_, ?_, ?_, ?_⟩
    · rw [hdoi, hA3]
      rfl
    · rw [hbg, hA3]
      rfl
    · rw [hrq, hA3]
      rfl
    · rw [hmf, hA3]
      rfl
    · rw [hsg, hA3]
      rfl
    · rw [hti, hA3]
      rfl
    · rw [hau, hA3]
      rfl

/-- C3 witness at a concrete run whose responses carry no parseable JSON,
so every metadata field is absent. -/
theorem pdfUploadRow_absent_fields_witness :
    (parsedOrEmpty (fun _ => none) "no json").doi = none
    ∧ ((fun _ : String => (Except.ok "no json" : Except String String))
        (initialPrompt (convertTextToMarkdown "Hello")) = Except.ok "no json")
    ∧ (persistedRunRow (fun _ => none) (fun _ => Except.ok "no json") 2026
        "paper.pdf" "Hello").doi = none :=
  ⟨rfl, rfl,
   ((pdfUploadRow_absent_fields (fun _ => none)
     (fun _ => Except.ok "no json") 2026 "paper.pdf" "Hello").2.2.2.1
     "no json" "no json" rfl rfl).1 rfl rfl⟩

/-- A concrete `ai_models` row for the default-flag scenarios. -/
def sampleModel (id : String) (isDef : Bool) : AIModel :=
  { id := id, name := "M" ++ id, provider := "siliconflow", api_key := "k",
    base_url := none, model_name := "q", is_default := isDef,
    created_at := "t0", updated_at := "t0" }

theorem clearDefaults_all_false (now : String) (db : List AIModel) :
    ∀ m ∈ (clearDefaultModels true now db).1, m.is_default = false := by
  intro m hm
  have hm2 : m ∈ db.map (fun m0 =>
      if m0.is_default then { m0 with is_default := false, updated_at := now }
      else m0) := hm
  rcases List.mem_map.mp hm2 with ⟨m0, _, rfl⟩
  by_cases h : m0.is_default = true <;> simp [h]

theorem countDefaults_of_all_false (l : List AIModel)
    (h : ∀ m ∈ l, m.is_default = false) : countDefaults l = 0 := by
  induction l with
  | nil => rfl
  | cons m rest ih =>
    have hm := h m (List.mem_cons_self _ _)
    simp only [countDefaults, List.filter_cons, hm]
    exact ih (fun a ha => h a (List.mem_cons_of_mem _ ha))

theorem countDefaults_set_trigger (now id : String) (l : List AIModel) :
    countDefaults (l.map (fun m =>
      if m.id = id then { m with is_default := true, updated_at := now }
      else { m with is_default := false, updated_at := now }))
    = (l.filter (fun m => m.id = id)).length := by
  induction l with
  | nil => rfl
  | cons m rest ih =>
    simp only [countDefaults] at ih ⊢
    simp only [List.map_cons, List.filter_cons]
    by_cases hid : m.id = id
    · rw [if_pos hid]
      simp [hid, ih]
    · rw [if_neg hid]
      simp [hid, ih]

theorem filter_by_id_le_one (id : String) (l : List AIModel)
    (h : (l.map (fun m => m.id)).Nodup) :
    (l.filter (fun m => m.id = id)).length ≤ 1 := by
  induction l with
  | nil => exact Nat.zero_le 1
  | cons m rest ih =>
    simp only [List.map_cons, List.nodup_cons] at h
    by_cases hid : m.id = id
    · have hnone : rest.filter (fun m => m.id = id) = [] := by
        rw [List.filter_eq_nil_iff]
        intro a ha haid
        have haid2 : a.id = id := of_decide_eq_true haid
        apply h.1
        rw [List.mem_map]
        exact ⟨a, ha, by rw [haid2]; exact hid.symm⟩
      simp [List.filter_cons, hid, hnone]
    · simp only [List.filter_cons, hid]
      simp only [decide_eq_true_eq, if_neg hid]
      exact ih h.2

theorem clearDefaults_ids (now : String) (db : List AIModel) :
    ((clearDefaultModels true now db).1).map (fun m => m.id)
      = db.map (fun m => m.id) := by
  induction db with
  | nil => rfl
  | cons m rest ih =>
    have hstep :
        ((clearDefaultModels true now (m :: rest)).1).map (fun m => m.id)
        = (if m.is_default then
            { m with is_default := false, updated_at := now } else m).id
          :: ((clearDefaultModels true now rest).1).map (fun m => m.id) := rfl
    rw [hstep, ih]
    by_cases h : m.is_default = true <;> simp [h]

theorem any_id_eq (id : String) (l : List AIModel) :
    l.any (fun m => m.id = id)
      = (l.map (fun m => m.id)).any (fun i => i = id) := by
  induction l with
  | nil => rfl
  | cons m rest ih => simp only [List.any_cons, List.map_cons, ih]

theorem clearDefaults_any_id (now id : String) (db : List AIModel) :
    ((clearDefaultModels true now db).1).any (fun m => m.id = id)
      = db.any (fun m => m.id = id) := by
  rw [any_id_eq id ((clearDefaultModels true now db).1), any_id_eq id db,
    clearDefaults_ids]

/-- C4: at most one configuration is flagged default after any completed
`setAsDefault` call, single-writer.  The init.sql trigger
`ensure_single_default_ai_model` clears every other row whenever the set
UPDATE flags the chosen row, so on the effective path (set UPDATE succeeds
and the id exists — second conjunct) the call re-establishes the at-most-one
property from ANY prior state, even when the preceding clear UPDATE failed
and its swallowed Bool went unchecked.  On the remaining completion paths
(set UPDATE failing, or targeting an absent id) no new default is written,
so the property is preserved from every prior state satisfying it — and
with the trigger guarding every insert and update, those are all the
reachable states (first conjunct).  Ids are assumed unique (primary-key
column). -/
theorem setAsDefault_single_default (clearOk setOk : Bool) (now id : String)
    (db : List AIModel) (hids : (db.map (fun m => m.id)).Nodup) :
    (countDefaults db ≤ 1 →
      countDefaults (setAsDefault clearOk setOk now id db).1 ≤ 1)
    ∧ (setOk = true → db.any (fun m => m.id = id) = true →
      countDefaults (setAsDefault clearOk setOk now id db).1 ≤ 1) := by
  have hids1 :
      (((clearDefaultModels clearOk now db).1).map (fun m => m.id)).Nodup := by
    cases clearOk with
    | false => exact hids
    | true => rw [clearDefaults_ids]; exact hids
  have hcount1 : countDefaults db ≤ 1 →
      countDefaults (clearDefaultModels clearOk now db).1 ≤ 1 := by
    cases clearOk with
    | false => exact fun h => h
    | true =>
      intro _
      rw [countDefaults_of_all_false _ (clearDefaults_all_false now db)]
      exact Nat.zero_le 1
  have hset : ∀ l : List AIModel, ((l.map (fun m => m.id)).Nodup) →
      countDefaults l ≤ 1 →
      countDefaults (dbSetDefaultUpdate now id l) ≤ 1 := by
    intro l hl hc
    unfold dbSetDefaultUpdate
    by_cases ha : l.any (fun m => m.id = id) = true
    · rw [if_pos ha, countDefaults_set_trigger]
      exact filter_by_id_le_one id l hl
    · rw [if_neg ha]
      exact hc
  have hsetAny : ∀ l : List AIModel, ((l.map (fun m => m.id)).Nodup) →
      l.any (fun m => m.id = id) = true →
      countDefaults (dbSetDefaultUpdate now id l) ≤ 1 := by
    intro l hl ha
    unfold dbSetDefaultUpdate
    rw [if_pos ha, countDefaults_set_trigger]
    exact filter_by_id_le_one id l hl
  constructor
  · intro hprior
    cases setOk with
    | false => exact hcount1 hprior
    | true => exact hset _ hids1 (hcount1 hprior)
  · intro hs ha
    cases setOk with
    | false => cases hs
    | true =>
      have ha1 : ((clearDefaultModels clearOk now db).1).any
          (fun m => m.id = id) = true := by
        cases clearOk with
        | false => exact ha
        | true => rw [clearDefaults_any_id]; exact ha
      exact hsetAny _ hids1 ha1

/-- C4 witness: prior state A default / B not, the clear UPDATE failing
(swallowed) and the set UPDATE on b succeeding — the trigger clears A, so
one default remains. -/
theorem setAsDefault_single_default_witness :
    (([sampleModel "a" true, sampleModel "b" false].map
        (fun m => m.id)).Nodup)
    ∧ ([sampleModel "a" true, sampleModel "b" false].any
        (fun m => m.id = "b") = true)
    ∧ countDefaults (setAsDefault false true "t1" "b"
        [sampleModel "a" true, sampleModel "b" false]).1 ≤ 1 :=
  ⟨by decide, by decide,
   (setAsDefault_single_default false true "t1" "b"
     [sampleModel "a" true, sampleModel "b" false] (by decide)).2 rfl
     (by decide)⟩

theorem filter_default_eq_nil (l : List AIModel)
    (h : ∀ m ∈ l, m.is_default = false) :
    l.filter (fun m => m.is_default) = [] := by
  induction l with
  | nil => rfl
  | cons m rest ih =>
    have hm := h m (List.mem_cons_self _ _)
    simp only [List.filter_cons, hm]
    exact ih (fun a ha => h a (List.mem_cons_of_mem _ ha))

/-- C5: with no explicit model id and no configuration flagged as default
(in particular with no configurations at all), `generateCompletion` fails
with the no-model-configured error and the outbound request list is empty:
no network call is made. -/
theorem generateCompletion_no_model_configured
    (net : NetRequest → NetResponse) (db : List AIModel)
    (prompt : String) (context : Option String) (papers : List PaperRecord)
    (h : ∀ m ∈ db, m.is_default = false) :
    generateCompletion net db prompt none context papers
      = (Except.error AIError.noModelConfigured, []) := by
  have hdm : getDefaultModel db = none := by
    unfold getDefaultModel
    rw [filter_default_eq_nil db h]
  unfold generateCompletion
  cases hdm2 : getDefaultModel db with
  | none => rfl
  | some m => rw [hdm] at hdm2; cases hdm2

/-- C5 witness with an empty collection of configurations. -/
theorem generateCompletion_no_model_configured_witness :
    (∀ m ∈ ([] : List AIModel), m.is_default = false)
    ∧ generateCompletion
        (fun _ => { ok := true, errorMessage := none, status := 200,
                    choices := ["hi"] })
        [] "hello" none none []
      = (Except.error AIError.noModelConfigured, []) :=
  ⟨fun m hm => absurd hm (List.not_mem_nil m),
   generateCompletion_no_model_configured _ [] "hello" none []
     (fun m hm => absurd hm (List.not_mem_nil m))⟩

theorem generateCompletion_requests_prompt (net : NetRequest → NetResponse)
    (db : List AIModel) (prompt : String) (modelId : Option String)
    (context : Option String) (papers : List PaperRecord) :
    ∀ r ∈ (generateCompletion net db prompt modelId context papers).2,
      r.prompt = buildPrompt prompt context papers := by
  intro r hr
  simp only [generateCompletion] at hr
  split at hr
  · cases hr
  · split at hr
    · simp only [generateSiliconFlowCompletion] at hr
      rw [List.mem_singleton] at hr
      subst hr
      rfl
    · split at hr
      · cases hr
      · split at hr
        · cases hr
        · split at hr
          · cases hr
          · split at hr
            · simp only [generateOpenRouterCompletion] at hr
              rw [List.mem_singleton] at hr
              subst hr
              rfl
            · cases hr

/-- A minimal context record with the given title. -/
def samplePaper (n : String) : PaperRecord :=
  { name := n, author := none, year := none, abstract := none, doi := none }

/-- C7: with a non-empty list of context records the augmented prompt is
the structured research-assistant template — whatever free-text context is
also supplied, so the two augmentations are mutually exclusive with the
records taking priority.  The template contains every record's title, the
caller's original prompt, and the literal instruction to state clearly
when the papers do not contain the information; and every outbound request
the call makes carries exactly this template. -/
theorem generateCompletion_papers_prompt (prompt : String)
    (context : Option String) (papers : List PaperRecord)
    (hp : 0 < papers.length) :
    buildPrompt prompt context papers = papersTemplate prompt papers
    ∧ (∀ p ∈ papers,
        strIncludes (papersTemplate prompt papers) p.name = true)
    ∧ strIncludes (papersTemplate prompt papers) insufficiencyInstruction
        = true
    ∧ strIncludes (papersTemplate prompt papers) prompt = true
    ∧ (∀ (net : NetRequest → NetResponse) (db : List AIModel)
        (modelId : Option String) (r : NetRequest),
        r ∈ (generateCompletion net db prompt modelId context papers).2 →
        r.prompt = papersTemplate prompt papers) := by
  have hbp : buildPrompt prompt context papers = papersTemplate prompt papers := by
    unfold buildPrompt
    rw [if_pos hp]
  refine ⟨hbp, ?_, ?_, ?_, ?_⟩
  · intro p hmem
    obtain ⟨b, hb, hbn⟩ := enumWith_paperBlock_mem papers p hmem 0
    unfold papersTemplate
    apply strIncludes_append_left
    apply strIncludes_append_left
    apply strIncludes_append_left
    apply strIncludes_append_left
    apply strIncludes_append_right
    exact jsJoin_includes _ _ _ _ hb hbn
  · unfold papersTemplate
    exact strIncludes_append_right _ _ _ (strIncludes_self _)
  · unfold papersTemplate
    apply strIncludes_append_left
    apply strIncludes_append_left
    exact strIncludes_append_right _ _ _ (strIncludes_self _)
  · intro net db modelId r hr
    rw [← hbp]
    exact generateCompletion_requests_prompt net db prompt modelId context
      papers r hr

/-- C7 witness at three concrete records (and a competing free-text
context, which the records override). -/
theorem generateCompletion_papers_prompt_witness :
    0 < ([samplePaper "Alpha", samplePaper "Beta",
          samplePaper "Gamma"] : List PaperRecord).length
    ∧ strIncludes
        (papersTemplate "Q?"
          [samplePaper "Alpha", samplePaper "Beta", samplePaper "Gamma"])
        (samplePaper "Beta").name = true :=
  ⟨by decide,
   (generateCompletion_papers_prompt "Q?" (some "free text")
     [samplePaper "Alpha", samplePaper "Beta", samplePaper "Gamma"]
     (by decide)).2.1 (samplePaper "Beta") (by simp)⟩

/-- C6: the batch loop touches every file (results align one-to-one with
the inputs), the outcome at position j is a function of file j's own
external outcomes only — so a sibling's failure can neither abort nor
alter it — a file whose upload, extraction, insert and link all succeed
ends with status `success` and a persisted row plus batch link, and a file
whose text extraction fails (its upload having succeeded) ends with status
`error` carrying exactly the extraction message, while still being
recorded. -/
theorem runBatch_isolation (decode : String → Option ExtractedData)
    (ai : String → Except String String) (currentYear : Int)
    (ops : List FileOps) (j : Nat) (hj : j < ops.length) :
    (runBatch decode ai currentYear ops).length = ops.length
    ∧ (runBatch decode ai currentYear ops).get? j
        = some (processFile decode ai currentYear (ops.get ⟨j, hj⟩))
    ∧ ((ops.get ⟨j, hj⟩).uploadError = none →
        (ops.get ⟨j, hj⟩).insertError = none →
        (ops.get ⟨j, hj⟩).linkError = none →
        (∃ t, extractTextFromPDF (ops.get ⟨j, hj⟩).pages = Except.ok t) →
        (processFile decode ai currentYear (ops.get ⟨j, hj⟩)).status
            = ProcStatus.success
        ∧ (processFile decode ai currentYear
            (ops.get ⟨j, hj⟩)).persisted.isSome = true
        ∧ (processFile decode ai currentYear
            (ops.get ⟨j, hj⟩)).linked.isSome = true)
    ∧ (∀ msg, (ops.get ⟨j, hj⟩).uploadError = none →
        (ops.get ⟨j, hj⟩).insertError = none →
        (ops.get ⟨j, hj⟩).linkError = none →
        extractTextFromPDF (ops.get ⟨j, hj⟩).pages = Except.error msg →
        (processFile decode ai currentYear (ops.get ⟨j, hj⟩)).status
            = ProcStatus.error
        ∧ (processFile decode ai currentYear (ops.get ⟨j, hj⟩)).errorMsg
            = some msg
        ∧ (processFile decode ai currentYear (ops.get ⟨j, hj⟩)).persisted
            = some (pdfUploadRow currentYear (ops.get ⟨j, hj⟩).fileName
                none)) := by
  refine ⟨?_, ?_, ?_, ?_⟩
  · simp [runBatch]
  · rw [show runBatch decode ai currentYear ops
        = ops.map (processFile decode ai currentYear) from rfl]
    rw [List.get?_map, List.get?_eq_get hj]
    rfl
  · intro h1 h2 h3 ht
    obtain ⟨t, ht⟩ := ht
    simp only [processFile, processPDFFromPages, h1, h2, h3, ht]
    simp
  · intro msg h1 h2 h3 ht
    simp only [processFile, processPDFFromPages, h1, h2, h3, ht]
    simp

/-- A concrete batch entry whose external steps all succeed, parameterized
by the page texts. -/
def sampleOps (fname : String) (pages : List (Option String)) (idn : Nat) :
    FileOps :=
  { fileName := fname, uploadError := none, pages := pages,
    insertError := none, insertedId := idn, linkError := none }

/-- C6 witness: a 3-file batch where file 2 fails text extraction; the
failing file gets status `error` with the extraction message, and a
sibling's all-success file gets status `success` with a persisted row. -/
theorem runBatch_isolation_witness :
    (1 < ([sampleOps "a.pdf" [some "Alpha"] 1, sampleOps "b.pdf" [] 2,
          sampleOps "c.pdf" [some "Gamma"] 3] : List FileOps).length)
    ∧ (processFile (fun _ => none) (fun _ => Except.ok "x") 2026
        (([sampleOps "a.pdf" [some "Alpha"] 1, sampleOps "b.pdf" [] 2,
           sampleOps "c.pdf" [some "Gamma"] 3] : List FileOps).get
          ⟨1, by decide⟩)).status = ProcStatus.error
    ∧ (processFile (fun _ => none) (fun _ => Except.ok "x") 2026
        (([sampleOps "a.pdf" [some "Alpha"] 1, sampleOps "b.pdf" [] 2,
           sampleOps "c.pdf" [some "Gamma"] 3] : List FileOps).get
          ⟨0, by decide⟩)).status = ProcStatus.success :=
  ⟨by decide,
   ((runBatch_isolation (fun _ => none) (fun _ => Except.ok "x") 2026
     [sampleOps "a.pdf" [some "Alpha"] 1, sampleOps "b.pdf" [] 2,
      sampleOps "c.pdf" [some "Gamma"] 3] 1 (by decide)).2.2.2
     "Could not extract text from PDF: No text content found in PDF"
     rfl rfl rfl rfl).1,
   ((runBatch_isolation (fun _ => none) (fun _ => Except.ok "x") 2026
     [sampleOps "a.pdf" [some "Alpha"] 1, sampleOps "b.pdf" [] 2,
      sampleOps "c.pdf" [some "Gamma"] 3] 0 (by decide)).2.2.1
     rfl rfl rfl ⟨"Alpha", rfl⟩).1⟩

/-- C10: `getApiKey` is total and never fails — it always produces a
non-empty key: the cached key when one is (truthily) cached, the fetched
key when the lookup yields a usable row, and otherwise the hard-coded
built-in default, in particular whenever the lookup errors (which, through
`.single()`, includes the no-row case). -/
theorem getApiKey_total_fallback (cached : Option String)
    (lookup : KeyLookup) :
    (getApiKey cached lookup).1 ≠ ""
    ∧ (∀ k, cached = some k → k ≠ "" → (getApiKey cached lookup).1 = k)
    ∧ (jsTruthyStr cached = false → lookup = KeyLookup.err →
        (getApiKey cached lookup).1 = DEFAULT_API_KEY)
    ∧ (∀ k, jsTruthyStr cached = false → lookup = KeyLookup.row k →
        k ≠ "" → (getApiKey cached lookup).1 = k) := by
  rcases cached with _ | k0
  · refine ⟨?_, ?_, ?_, ?_⟩
    · cases lookup with
      | err => decide
      | row k =>
        by_cases hk : k = ""
        · simp [getApiKey, jsTruthyStr, hk, DEFAULT_API_KEY]
        · simp [getApiKey, jsTruthyStr, hk]
    · intro k hk
      cases hk
    · intro _ hl
      subst hl
      rfl
    · intro k _ hl hk
      subst hl
      simp [getApiKey, jsTruthyStr, hk]
  · by_cases h0 : k0 = ""
    · subst h0
      refine ⟨?_, ?_, ?_, ?_⟩
      · cases lookup with
        | err => decide
        | row k =>
          by_cases hk : k = ""
          · simp [getApiKey, jsTruthyStr, hk, DEFAULT_API_KEY]
          · simp [getApiKey, jsTruthyStr, hk]
      · intro k hk hne
        cases hk
        exact absurd rfl hne
      · intro _ hl
        subst hl
        rfl
      · intro k _ hl hk
        subst hl
        simp [getApiKey, jsTruthyStr, hk]
    · refine ⟨?_, ?_, ?_, ?_⟩
      · simp [getApiKey, jsTruthyStr, h0]
      · intro k hk _
        cases hk
        simp [getApiKey, jsTruthyStr, h0]
      · intro htr
        simp [jsTruthyStr, h0] at htr
      · intro k htr
        simp [jsTruthyStr, h0] at htr

/-- C10 witness: a cached key is returned unchanged. -/
theorem getApiKey_total_fallback_witness :
    ("abc" ≠ "")
    ∧ (getApiKey (some "abc") KeyLookup.err).1 = "abc" :=
  ⟨by decide,
   (getApiKey_total_fallback (some "abc") KeyLookup.err).2.1 "abc" rfl
     (by decide)⟩

end FireCollector
